import Mathlib

/-!
Verification of the option-normalization core of graph-cli
(src/options.py) via a shallow embedding in Lean 4.

Modelling conventions:
* Python None is Lean's Option.none; a value that may be None has type
  Option.
* A Python function that can raise an uncaught exception is modelled with
  an Option-valued result where none means "an exception propagates"
  (IndexError, ValueError, ZeroDivisionError, TypeError); the distinct
  exception classes are not told apart because no verified property
  depends on which one is raised.
* Python float is modelled with Rat: every numeric literal the program
  parses is an exact decimal, and the verified properties concern the
  parsing, not rounding.
* Python str is Lean String; character-level helpers below reimplement
  the str methods the source uses (split on a one-character separator,
  replace of a one-character pattern, int() and float() on the decimal
  grammar the program can receive, join, negative indexing).
-/

set_option autoImplicit false

namespace GraphCli

universe u v

/-- Digits to the natural number they denote (most significant first). -/
def digitsToNat (cs : List Char) : Nat :=
  cs.foldl (fun a c => a * 10 + (c.toNat - 48)) 0

/-- Model of Python int(s) on the grammar this program can receive:
an optional sign followed by decimal digits.  none models a ValueError. -/
def pyIntParse (s : String) : Option Int :=
  let p : Bool × List Char :=
    match s.data with
    | '-' :: r => (true, r)
    | '+' :: r => (false, r)
    | _ => (false, s.data)
  if p.2 ≠ [] ∧ p.2.all Char.isDigit then
    some (if p.1 then -(digitsToNat p.2 : Int) else (digitsToNat p.2 : Int))
  else none

/-- Model of Python float(s) on the grammar this program can receive:
an optional sign, an integer part and an optional fractional part
(exponents never reach float() here).  none models a ValueError. -/
def pyFloat (s : String) : Option Rat :=
  let p : Bool × List Char :=
    match s.data with
    | '-' :: r => (true, r)
    | '+' :: r => (false, r)
    | _ => (false, s.data)
  let ip := p.2.takeWhile Char.isDigit
  let rest := p.2.drop ip.length
  let fp :=
    match rest with
    | '.' :: r => r.takeWhile Char.isDigit
    | _ => []
  let tail :=
    match rest with
    | '.' :: r => r.drop fp.length
    | _ => rest
  if tail = [] ∧ (ip ≠ [] ∨ (rest ≠ [] ∧ fp ≠ [])) then
    let mag : Rat := (digitsToNat ip : Rat) + (digitsToNat fp : Rat) / (10 ^ fp.length : Rat)
    some (if p.1 then -mag else mag)
  else none

/-- Model of Python s.split(sep) for a one-character separator, on the
character list: no collapsing of adjacent separators, and the split of an
empty string is a list holding one empty piece. -/
def splitChar (sep : Char) : List Char → List (List Char)
  | [] => [[]]
  | c :: cs =>
    if c = sep then [] :: splitChar sep cs
    else
      match splitChar sep cs with
      | [] => [[c]]
      | h :: t => (c :: h) :: t

/-- Python s.split(sep) for a one-character separator, on strings. -/
def pySplit (sep : Char) (s : String) : List String :=
  (splitChar sep s.data).map (fun cs => String.mk cs)

/-- Python y.replace(old, new) for one-character old and new. -/
def pyReplaceChar (old new : Char) (s : String) : String :=
  String.mk (s.data.map (fun c => if c = old then new else c))

/-- Model of Python sep.join(iterable). -/
def pyJoin (sep : String) (l : List String) : String :=
  String.intercalate sep l

/-- Model of iterating Python set(xs) for strings: deduplication.  CPython's
set iteration order is unspecified (hash based); the model fixes the order
of first occurrence.  The verified properties either do not depend on the
order or instantiate it on lists where every order coincides. -/
def pySetDedup : List String → List String :=
  go []
where
  /-- Keep the first occurrence of each string, tracking what was seen. -/
  go (seen : List String) : List String → List String
    | [] => []
    | x :: xs => if x ∈ seen then go seen xs else x :: go (x :: seen) xs

/-- Model of Python xs[i] on a sequence (pandas Index included): a negative
index counts from the end; none models an IndexError. -/
def pyIndex {α : Type u} (xs : List α) (i : Int) : Option α :=
  if i < 0 then
    if (-i).toNat ≤ xs.length then xs.get? (xs.length - (-i).toNat) else none
  else
    xs.get? i.toNat

/-- src/options.py, get_column_name (lines 12-20).  The first component
layer: none models an uncaught IndexError from df.columns[int(col)-1]
(only ValueError is caught); some none models the logged
"column not found" outcome that returns Python None. -/
def get_column_name (cols : List String) (col : String) : Option (Option String) :=
  if col ∈ cols then some (some col)
  else
    match pyIntParse col with
    | some k => (pyIndex cols (k - 1)).map some
    | none => some none

/-- The for-loop of fill_list (lines 131-133): replace each None entry at
index i by default_vals[i % len(default_vals)], starting the index count
at start.  Callers guarantee dv is nonempty whenever a none entry exists
(fill_list checks this and reports the ZeroDivisionError otherwise). -/
def fillFrom {α : Type u} (dv : List (Option α)) : Nat → List (Option α) → List (Option α)
  | _, [] => []
  | i, x :: xs =>
    (match x with
     | some v => some v
     | none => (dv.get? (i % dv.length)).getD none) :: fillFrom dv (i + 1) xs

/-- Lines 125-127 of fill_list: a missing default_vals is replaced by the
one-element list holding the input's first element, or None. -/
def fl_defaults {α : Type u} (lst : List (Option α))
    (default_vals? : Option (List (Option α))) : List (Option α) :=
  default_vals?.getD [(lst.head?).getD none]

/-- Lines 128-129 of fill_list: a falsy length (None, or an explicit 0)
is replaced by len(default_vals). -/
def fl_length {α : Type u} (dv : List (Option α)) (length? : Option Nat) : Nat :=
  match length? with
  | some l => if l = 0 then dv.length else l
  | none => dv.length

/-- Line 130 of fill_list: right-pad with None up to the target length
(a negative count pads nothing). -/
def fl_padded {α : Type u} (lst : List (Option α)) (length : Nat) : List (Option α) :=
  lst ++ List.replicate (length - lst.length) none

/-- src/options.py, fill_list (lines 122-136), without the final
map_fn step (line 134-135 is a plain list(map(map_fn, lst)) that the
call sites below apply themselves).  The Option layers of the arguments
model the Python defaults lst=None, default_vals=None, length=None; a
falsy lst (None or empty) is treated as the empty list (lines 123-124).
The outer Option of the result models the ZeroDivisionError raised when
a None slot must be filled from an empty default_vals. -/
def fill_list {α : Type u} (lst? : Option (List (Option α)))
    (default_vals? : Option (List (Option α)))
    (length? : Option Nat) : Option (List (Option α)) :=
  if (fl_defaults (lst?.getD []) default_vals?).isEmpty ∧
      ((fl_padded (lst?.getD [])
        (fl_length (fl_defaults (lst?.getD []) default_vals?) length?)).any
          (fun x => x.isNone)) then
    none
  else
    some (fillFrom (fl_defaults (lst?.getD []) default_vals?) 0
      (fl_padded (lst?.getD [])
        (fl_length (fl_defaults (lst?.getD []) default_vals?) length?)))

/-- The default color palette of fill_args (line 62):
C0, C1, ..., C9. -/
def default_palette : List (Option String) :=
  (List.range 10).map (fun n => some ("C" ++ toString n))

/-- The relevant fields of the argument object as they stand when
fill_args is entered (src/options.py line 40): the comma-capable options
have been split into lists (validate_args lines 24-27), the y-column
tokens have been resolved and the unresolved ones dropped (lines 34-35),
and the x-column tokens have been resolved with unresolved ones kept as
None (line 36).  A comma-split option that was not given is none; a given
one is a list of (some) strings. -/
structure Args where
  ycol : List String
  xcol : List (Option String)
  legend : Option (List (Option String))
  color : Option (List (Option String))
  style : Option (List (Option String))
  marker : Option (List (Option String))
  linewidth : Option (List (Option String))
  markersize : Option (List (Option String))
  output : Option String
  time_format : Option (List (Option String))
  resample : Option (List (Option String))
  sort : Bool

/-- The per-series lists produced by fill_args.  linewidth and markersize
hold integers because fill_args passes map_fn=int. -/
structure FilledArgs where
  xcol : List (Option String)
  legend : List (Option String)
  color : List (Option String)
  style : List (Option String)
  marker : List (Option String)
  linewidth : List Int
  markersize : List Int
  output : List (Option String)
  time_format : List (Option String)
  resample : List (Option String)
  sort : List (Option Bool)

/-- src/options.py, fill_args (lines 52-71).  none models an uncaught
exception: the IndexError of args.xcol[-1] on an empty x list, a
ZeroDivisionError from fill_list, or a ValueError/TypeError from the
map_fn=int conversion of linewidth/markersize (modelled by pyIntParse on
each element, which must be a some that parses). -/
def fill_args (a : Args) : Option FilledArgs := do
  let num_graphs := a.ycol.length
  let xlast ← a.xcol.getLast?
  let xcol ← fill_list (some a.xcol) (some [xlast]) (some num_graphs)
  let legend ← fill_list a.legend (some (a.ycol.map some)) none
  let color0 ← fill_list a.color (some default_palette) none
  let color := color0.take num_graphs
  let style ← fill_list a.style none (some num_graphs)
  let marker ← fill_list a.marker none (some num_graphs)
  let linewidth0 ← fill_list a.linewidth none (some num_graphs)
  let linewidth ← linewidth0.mapM (fun x => x.bind pyIntParse)
  let markersize0 ← fill_list a.markersize none (some num_graphs)
  let markersize ← markersize0.mapM (fun x => x.bind pyIntParse)
  let output := List.replicate num_graphs a.output
  let time_format ← fill_list a.time_format (some [none]) (some num_graphs)
  let resample ← fill_list a.resample (some [none]) (some num_graphs)
  let sort ← fill_list (some [some a.sort]) none (some num_graphs)
  pure {
    xcol := xcol, legend := legend, color := color, style := style,
    marker := marker, linewidth := linewidth, markersize := markersize,
    output := output, time_format := time_format, resample := resample,
    sort := sort }

/-- The relevant fields of the argument object as they stand when
fill_global_args is entered (line 44): xcol and ycol are the lists left
by fill_args (still column identifiers; the data is substituted only
afterwards, lines 47-48). -/
structure GArgs where
  xcol : List (Option String)
  ycol : List String
  xlabel : Option String
  xscale : Option Rat
  xrange : Option String
  ylabel : Option String
  yscale : Option Rat
  yrange : Option String
  figsize : String
  title : Option String
  fontsize : Int

/-- The global settings produced by fill_global_args: each field is a
(value, user_specified) pair.  A range value of none stands for the falsy
raw value (None or the empty string) that the code keeps unparsed. -/
structure GlobalResolved where
  xlabel : String × Bool
  xscale : Option Rat × Bool
  xrange : Option (List Rat) × Bool
  ylabel : String × Bool
  yscale : Option Rat × Bool
  yrange : Option (List Rat) × Bool
  figsize : List Int × Bool
  title : String × Bool
  fontsize : Int × Bool

/-- The range-parsing expression of fill_global_args (lines 85-86 and
102-103): split the raw string on the minus sign, replace each
underscore by a minus sign in each piece, and parse every piece as a
float.  none models the ValueError of float() propagating (fatal). -/
def parse_range (s : String) : Option (List Rat) :=
  (pySplit '-' s).mapM (fun y => pyFloat (pyReplaceChar '_' '-' y))

/-- The xrange/yrange branch of fill_global_args (lines 84-89 and
101-106): a truthy raw string is parsed and marked user-specified; a
falsy raw value (None or empty) is kept and marked not user-specified. -/
def fill_range_field (x : Option String) : Option (Option (List Rat) × Bool) :=
  match x with
  | some s => if s = "" then some (none, false) else (parse_range s).map (fun l => (some l, true))
  | none => some (none, false)

/-- The xlabel branch of fill_global_args (lines 75-78): when unset,
join the deduplicated x-column identifiers; joining raises a TypeError
(modelled by none) if an unresolved None x column remains.  The check is
"is None", so an empty string counts as user specified. -/
def fill_xlabel (xcol : List (Option String)) (xlabel : Option String) :
    Option (String × Bool) :=
  match xlabel with
  | none => (xcol.mapM id).map (fun xs => (pyJoin ", " (pySetDedup xs), false))
  | some s => some (s, true)

/-- The ylabel branch of fill_global_args (lines 92-95): when unset,
join all the y-column identifiers, without deduplication. -/
def fill_ylabel (ycol : List String) (ylabel : Option String) : String × Bool :=
  match ylabel with
  | none => (pyJoin ", " ycol, false)
  | some s => (s, true)

/-- src/options.py, fill_global_args (lines 73-119).  none models an
uncaught exception (TypeError from the xlabel join over an unresolved
None x column, ValueError from float() on a range piece or from int() on
a figsize piece).  The title branch tests falsiness, so an empty given
title is synthesized like an absent one. -/
def fill_global_args (g : GArgs) : Option GlobalResolved := do
  let xlabel ← fill_xlabel g.xcol g.xlabel
  let xscale := (g.xscale, g.xscale.isSome)
  let xrange ← fill_range_field g.xrange
  let ylabel := fill_ylabel g.ycol g.ylabel
  let yscale := (g.yscale, g.yscale.isSome)
  let yrange ← fill_range_field g.yrange
  let figsize ← (pySplit 'x' g.figsize).mapM pyIntParse
  let title :=
    match g.title with
    | none => (ylabel.1 ++ " vs " ++ xlabel.1, false)
    | some t => if t = "" then (ylabel.1 ++ " vs " ++ xlabel.1, false) else (t, true)
  pure {
    xlabel := xlabel, xscale := xscale, xrange := xrange, ylabel := ylabel,
    yscale := yscale, yrange := yrange, figsize := (figsize, true),
    title := title, fontsize := (g.fontsize, true) }

/-- Concrete input: three resolved y columns, marker o, linewidth 2,
markersize 6 (the argparse defaults), everything else unset. -/
def args_three_series : Args :=
  { ycol := ["a", "b", "c"], xcol := [some "t"], legend := none, color := none,
    style := none, marker := some [some "o"], linewidth := some [some "2"],
    markersize := some [some "6"], output := none, time_format := none,
    resample := none, sort := false }

/-- Concrete input: one resolved y column but two legend values. -/
def args_excess_legend : Args :=
  { ycol := ["a"], xcol := [some "t"], legend := some [some "l1", some "l2"],
    color := none, style := none, marker := some [some "o"],
    linewidth := some [some "2"], markersize := some [some "6"], output := none,
    time_format := none, resample := none, sort := false }

/-- Concrete input: no y token resolved (N = 0). -/
def args_zero_series : Args :=
  { ycol := [], xcol := [some "t"], legend := none, color := none,
    style := none, marker := some [some "o"], linewidth := some [some "2"],
    markersize := some [some "6"], output := none, time_format := none,
    resample := none, sort := false }

/-- Concrete global input: x column time, y columns a and b, no labels,
no title, argparse defaults for figsize and fontsize. -/
def gargs_unset_labels : GArgs :=
  { xcol := [some "time"], ycol := ["a", "b"], xlabel := none, xscale := none,
    xrange := none, ylabel := none, yscale := none, yrange := none,
    figsize := "16x10", title := none, fontsize := 18 }

/-- Concrete global input with xrange "0-10". -/
def gargs_range_0_10 : GArgs :=
  { xcol := [some "t"], ycol := ["a"], xlabel := none, xscale := none,
    xrange := some "0-10", ylabel := none, yscale := none, yrange := none,
    figsize := "16x10", title := none, fontsize := 18 }

/-- Concrete global input with the three-piece xrange "0-10-20". -/
def gargs_three_bounds : GArgs :=
  { xcol := [some "t"], ycol := ["a"], xlabel := none, xscale := none,
    xrange := some "0-10-20", ylabel := none, yscale := none, yrange := none,
    figsize := "16x10", title := none, fontsize := 18 }

/-! ### Helper lemmas about the fill loop and fill_list -/

theorem fillFrom_length {α : Type u} (dv : List (Option α)) (i : Nat)
    (l : List (Option α)) : (fillFrom dv i l).length = l.length := by
  induction l generalizing i with
  | nil => rfl
  | cons x xs ih => simp [fillFrom, ih]

theorem fillFrom_get? {α : Type u} (dv : List (Option α)) (i j : Nat)
    (l : List (Option α)) :
    (fillFrom dv i l).get? j =
      (l.get? j).map (fun x =>
        match x with
        | some v => some v
        | none => (dv.get? ((i + j) % dv.length)).getD none) := by
  induction l generalizing i j with
  | nil => rfl
  | cons x xs ih =>
    cases j with
    | zero => simp [fillFrom]
    | succ j =>
      simp only [fillFrom, List.get?_cons_succ, ih (i + 1) j]
      have h : i + 1 + j = i + (j + 1) := by omega
      rw [h]

theorem fillFrom_all_some {α : Type u} (dv : List (Option α)) (i : Nat)
    (l : List (Option α)) (h : ∀ x ∈ l, x.isSome) : fillFrom dv i l = l := by
  induction l generalizing i with
  | nil => rfl
  | cons x xs ih =>
    have hx := h x (by simp)
    cases x with
    | none => simp at hx
    | some v =>
      simp only [fillFrom]
      exact congrArg _ (ih (i + 1) (fun y hy => h y (by simp [hy])))

theorem fillFrom_replicate {α : Type u} (dv : List (Option α)) (i n : Nat) :
    fillFrom dv i (List.replicate n (none : Option α)) =
      (List.range n).map (fun j => (dv.get? ((i + j) % dv.length)).getD none) := by
  induction n generalizing i with
  | zero => rfl
  | succ n ih =>
    rw [List.replicate_succ, List.range_succ_eq_map]
    simp only [fillFrom, List.map_cons, List.map_map, ih (i + 1)]
    refine congrArg₂ _ (by simp) ?_
    refine congrArg (fun f => List.map f (List.range n)) ?_
    funext j
    simp only [Function.comp_apply, Nat.succ_eq_add_one]
    have h : i + 1 + j = i + (j + 1) := by omega
    rw [h]

theorem fl_padded_length {α : Type u} (lst : List (Option α)) (L : Nat) :
    (fl_padded lst L).length = max lst.length L := by
  rw [fl_padded, List.length_append, List.length_replicate]
  omega

theorem fl_length_pos {α : Type u} (dv : List (Option α)) (L : Nat) (hL : L ≠ 0) :
    fl_length dv (some L) = L := by
  simp [fl_length, hL]

theorem fl_length_zero {α : Type u} (dv : List (Option α)) :
    fl_length dv (some 0) = dv.length := rfl

theorem fl_length_none {α : Type u} (dv : List (Option α)) :
    fl_length dv none = dv.length := rfl

/-- A successful fill_list result is the padded list run through the
fill loop. -/
theorem fill_list_some_elim {α : Type u} (lst? : Option (List (Option α)))
    (dv? : Option (List (Option α))) (L? : Option Nat) (r : List (Option α))
    (h : fill_list lst? dv? L? = some r) :
    r = fillFrom (fl_defaults (lst?.getD []) dv?) 0
      (fl_padded (lst?.getD [])
        (fl_length (fl_defaults (lst?.getD []) dv?) L?)) := by
  unfold fill_list at h
  by_cases hc : (fl_defaults (lst?.getD []) dv?).isEmpty = true ∧
      ((fl_padded (lst?.getD [])
        (fl_length (fl_defaults (lst?.getD []) dv?) L?)).any
          (fun x => x.isNone)) = true
  · rw [if_pos hc] at h
    exact absurd h (by simp)
  · rw [if_neg hc] at h
    exact (Option.some.inj h).symm

/-- When the explicit default list is nonempty, fill_list cannot raise,
and it returns the padded list run through the fill loop. -/
theorem fill_list_eq_fillFrom {α : Type u} (lst dv : List (Option α))
    (L? : Option Nat) (hdv : dv ≠ []) :
    fill_list (some lst) (some dv) L? =
      some (fillFrom dv 0 (fl_padded lst (fl_length dv L?))) := by
  unfold fill_list
  rw [if_neg]
  · rfl
  · intro hc
    exact hdv (List.isEmpty_iff.mp hc.1)

/-- The length of any successful fill_list result. -/
theorem fill_list_length {α : Type u} (lst? : Option (List (Option α)))
    (dv? : Option (List (Option α))) (L? : Option Nat) (r : List (Option α))
    (h : fill_list lst? dv? L? = some r) :
    r.length = max (lst?.getD []).length
      (fl_length (fl_defaults (lst?.getD []) dv?) L?) := by
  rw [fill_list_some_elim lst? dv? L? r h, fillFrom_length, fl_padded_length]

/-- Successful monadic map over Option preserves the length. -/
theorem mapM_option_length {α : Type u} {β : Type v} (f : α → Option β)
    (l : List α) (r : List β) (h : l.mapM f = some r) : r.length = l.length := by
  rw [← List.mapM'_eq_mapM] at h
  induction l generalizing r with
  | nil =>
    simp only [List.mapM'] at h
    obtain rfl : _ = r := Option.some.inj h
    rfl
  | cons x xs ih =>
    simp only [List.mapM', Option.pure_def, Option.bind_eq_bind,
      Option.bind_eq_some] at h
    obtain ⟨y, _, z, hz, hr⟩ := h
    obtain rfl : y :: z = r := Option.some.inj hr
    simp [ih z hz]

/-! ### Concrete float and range computations -/

/-- Python float("0") is 0. -/
theorem pyFloat_0 : pyFloat "0" = some 0 := by
  have h : pyFloat "0" = some (((0 : Nat) : Rat) + ((0 : Nat) : Rat) / 10 ^ 0) := rfl
  rw [h]; norm_num

/-- Python float("10") is 10. -/
theorem pyFloat_10 : pyFloat "10" = some 10 := by
  have h : pyFloat "10" = some (((10 : Nat) : Rat) + ((0 : Nat) : Rat) / 10 ^ 0) := rfl
  rw [h]; norm_num

/-- Python float("20") is 20. -/
theorem pyFloat_20 : pyFloat "20" = some 20 := by
  have h : pyFloat "20" = some (((20 : Nat) : Rat) + ((0 : Nat) : Rat) / 10 ^ 0) := rfl
  rw [h]; norm_num

/-- Python float("-5") is -5. -/
theorem pyFloat_m5 : pyFloat "-5" = some (-5) := by
  have h : pyFloat "-5" = some (-(((5 : Nat) : Rat) + ((0 : Nat) : Rat) / 10 ^ 0)) := rfl
  rw [h]; norm_num

/-- Python float("-1.5") is -1.5. -/
theorem pyFloat_m1p5 : pyFloat "-1.5" = some (-1.5) := by
  have h : pyFloat "-1.5" = some (-(((1 : Nat) : Rat) + ((5 : Nat) : Rat) / 10 ^ 1)) := rfl
  rw [h]; norm_num

/-- Python float("-3.2") is -3.2. -/
theorem pyFloat_m3p2 : pyFloat "-3.2" = some (-3.2) := by
  have h : pyFloat "-3.2" = some (-(((3 : Nat) : Rat) + ((2 : Nat) : Rat) / 10 ^ 1)) := rfl
  rw [h]; norm_num

/-- Monadic map over Option on a two-element list. -/
theorem mapM_option_pair {α : Type u} {β : Type v} (f : α → Option β) (x y : α)
    (b1 b2 : β) (hx : f x = some b1) (hy : f y = some b2) :
    List.mapM f [x, y] = some [b1, b2] := by
  rw [← List.mapM'_eq_mapM]
  simp [List.mapM', hx, hy]

/-- Monadic map over Option on a three-element list. -/
theorem mapM_option_triple {α : Type u} {β : Type v} (f : α → Option β) (x y z : α)
    (b1 b2 b3 : β) (hx : f x = some b1) (hy : f y = some b2) (hz : f z = some b3) :
    List.mapM f [x, y, z] = some [b1, b2, b3] := by
  rw [← List.mapM'_eq_mapM]
  simp [List.mapM', hx, hy, hz]

/-- Monadic map over Option fails when the head fails. -/
theorem mapM_option_head_none {α : Type u} {β : Type v} (f : α → Option β) (x : α)
    (l : List α) (hx : f x = none) : List.mapM f (x :: l) = none := by
  rw [← List.mapM'_eq_mapM]
  simp [List.mapM', hx]

/-- "0-10" parses to [0, 10]. -/
theorem parse_range_0_10 : parse_range "0-10" = some [0, 10] := by
  rw [parse_range, show pySplit '-' "0-10" = ["0", "10"] from by decide]
  refine mapM_option_pair _ _ _ _ _ ?_ ?_
  · rw [show pyReplaceChar '_' '-' "0" = "0" from by decide]
    exact pyFloat_0
  · rw [show pyReplaceChar '_' '-' "10" = "10" from by decide]
    exact pyFloat_10

/-- "_5-10" parses to [-5, 10]. -/
theorem parse_range_m5_10 : parse_range "_5-10" = some [-5, 10] := by
  rw [parse_range, show pySplit '-' "_5-10" = ["_5", "10"] from by decide]
  refine mapM_option_pair _ _ _ _ _ ?_ ?_
  · rw [show pyReplaceChar '_' '-' "_5" = "-5" from by decide]
    exact pyFloat_m5
  · rw [show pyReplaceChar '_' '-' "10" = "10" from by decide]
    exact pyFloat_10

/-- "_1.5-_3.2" parses to [-1.5, -3.2]. -/
theorem parse_range_m1p5_m3p2 : parse_range "_1.5-_3.2" = some [-1.5, -3.2] := by
  rw [parse_range, show pySplit '-' "_1.5-_3.2" = ["_1.5", "_3.2"] from by decide]
  refine mapM_option_pair _ _ _ _ _ ?_ ?_
  · rw [show pyReplaceChar '_' '-' "_1.5" = "-1.5" from by decide]
    exact pyFloat_m1p5
  · rw [show pyReplaceChar '_' '-' "_3.2" = "-3.2" from by decide]
    exact pyFloat_m3p2

/-- "1_5-3_2" raises ValueError: the underscore replacement turns "1_5" into "1-5", which float() rejects. -/
theorem parse_range_bad : parse_range "1_5-3_2" = none := by
  rw [parse_range, show pySplit '-' "1_5-3_2" = ["1_5", "3_2"] from by decide]
  refine mapM_option_head_none _ _ _ ?_
  rw [show pyReplaceChar '_' '-' "1_5" = "1-5" from by decide]
  decide

/-- "0-10-20" parses to a THREE-element range with no arity check. -/
theorem parse_range_0_10_20 : parse_range "0-10-20" = some [0, 10, 20] := by
  rw [parse_range, show pySplit '-' "0-10-20" = ["0", "10", "20"] from by decide]
  refine mapM_option_triple _ _ _ _ _ _ _ ?_ ?_ ?_
  · rw [show pyReplaceChar '_' '-' "0" = "0" from by decide]
    exact pyFloat_0
  · rw [show pyReplaceChar '_' '-' "10" = "10" from by decide]
    exact pyFloat_10
  · rw [show pyReplaceChar '_' '-' "20" = "20" from by decide]
    exact pyFloat_20

/-- What a successful fill_global_args run says about each field of its
result. -/
theorem fill_global_args_elim (g : GArgs) (r : GlobalResolved)
    (hr : fill_global_args g = some r) :
    fill_xlabel g.xcol g.xlabel = some r.xlabel ∧
    fill_range_field g.xrange = some r.xrange ∧
    r.ylabel = fill_ylabel g.ycol g.ylabel ∧
    fill_range_field g.yrange = some r.yrange ∧
    r.title = (match g.title with
      | none => (r.ylabel.1 ++ " vs " ++ r.xlabel.1, false)
      | some t => if t = "" then (r.ylabel.1 ++ " vs " ++ r.xlabel.1, false)
                  else (t, true)) := by
  simp only [fill_global_args, Option.bind_eq_bind, Option.bind_eq_some,
    Option.pure_def, Option.some.injEq] at hr
  obtain ⟨xl, hxl, xr, hxr, yr, hyr, fs, hfs, hreq⟩ := hr
  subst hreq
  exact ⟨hxl, hxr, rfl, hyr, rfl⟩

/-! ### Claim theorems -/

/-- C2: for every non-empty default sequence d and target length L,
broadcasting an empty input to length L yields d[i mod len(d)] at every
position i, and for any input, every placeholder-padded slot at position
i is filled with d[i mod len(d)] (cyclic reuse of a shorter default
sequence). -/
theorem fill_list_cyclic {α : Type u} (d : List (Option α)) (L : Nat)
    (hd : d ≠ []) (hL : L ≠ 0) :
    (fill_list (some ([] : List (Option α))) (some d) (some L) =
      some ((List.range L).map (fun i => (d.get? (i % d.length)).getD none))) ∧
    (∀ (lst r : List (Option α)) (i : Nat),
      fill_list (some lst) (some d) (some L) = some r →
      lst.length ≤ i → i < r.length →
      r.get? i = some ((d.get? (i % d.length)).getD none)) := by
  constructor
  · rw [fill_list_eq_fillFrom _ _ _ hd, fl_length_pos _ _ hL]
    have hp : fl_padded ([] : List (Option α)) L = List.replicate L none := by
      simp [fl_padded]
    rw [hp, fillFrom_replicate]
    simp
  · intro lst r i hfill hge hlt
    have hr := fill_list_some_elim _ _ _ _ hfill
    rw [Option.getD_some] at hr
    have hd2 : fl_defaults lst (some d) = d := rfl
    rw [hd2, fl_length_pos _ _ hL] at hr
    subst hr
    rw [fillFrom_get?]
    have hlen : i < (fl_padded lst L).length := by
      rwa [fillFrom_length] at hlt
    have hpad : (fl_padded lst L).get? i = some none := by
      rw [fl_padded, List.get?_append_right hge]
      rw [fl_padded_length] at hlen
      rw [List.get?_eq_getElem?, List.getElem?_replicate, if_pos (by omega)]
    rw [hpad]
    simp

/-- C2 witness: fill_list([], [a,b,c], 7) = [a,b,c,a,b,c,a]. -/
theorem fill_list_cyclic_witness :
    fill_list (some ([] : List (Option String)))
        (some [some "a", some "b", some "c"]) (some 7) =
      some [some "a", some "b", some "c", some "a", some "b", some "c", some "a"] := by
  have h := (fill_list_cyclic [some "a", some "b", some "c"] 7 (by decide) (by decide)).1
  rw [h]
  decide

/-- C8 counterexample: for the empty input list with target length 0 (so
len(lst) == length and no None placeholders remain), fill_list does NOT
return the input unchanged: a length of 0 is falsy in Python, so the
target is silently replaced by len(default_vals) and the defaults are
returned instead of the empty list. -/
theorem fill_list_idem_cex :
    fill_list (some ([] : List (Option String))) (some [some "a"]) (some 0) =
        some [some "a"] ∧
    some [some "a"] ≠ some ([] : List (Option String)) :=
  ⟨by decide, by decide⟩

/-- C8 amended: broadcast is idempotent for every NONEMPTY list lst with
no None elements, every default sequence, and length equal to len(lst):
re-broadcasting returns the same list unchanged.  (The empty list with
target length 0 is the one exception, because 0 is falsy.) -/
theorem fill_list_idem {α : Type u} (lst d : List (Option α)) (L : Nat)
    (hne : lst ≠ []) (hsome : ∀ x ∈ lst, x.isSome) (hL : L = lst.length) :
    fill_list (some lst) (some d) (some L) = some lst := by
  subst hL
  have hL0 : lst.length ≠ 0 := by simpa using hne
  have hpad : fl_padded lst (fl_length (fl_defaults lst (some d)) (some lst.length)) = lst := by
    have hd2 : fl_defaults lst (some d) = d := rfl
    rw [hd2, fl_length_pos _ _ hL0, fl_padded]
    simp
  unfold fill_list
  rw [Option.getD_some, hpad, if_neg, fillFrom_all_some _ _ _ hsome]
  intro hc
  obtain ⟨x, hx, hxn⟩ := List.any_eq_true.mp hc.2
  have hs := hsome x hx
  cases x with
  | none => simp at hs
  | some v => simp at hxn

/-- C8 witness: a two-element None-free list with matching length 2 is
returned unchanged. -/
theorem fill_list_idem_witness :
    fill_list (some [some "x", some "y"]) (some ([] : List (Option String))) (some 2) =
      some [some "x", some "y"] :=
  fill_list_idem [some "x", some "y"] [] 2 (by decide) (by decide) (by decide)

/-- C3: if the token equals an existing column name that column is
returned; otherwise, if the token parses as an integer k, the column at
zero-based position k-1 is returned (when that position exists); otherwise
a non-numeric unmatched token yields None without raising. -/
theorem get_column_name_spec (cols : List String) (col : String) :
    (col ∈ cols → get_column_name cols col = some (some col)) ∧
    (col ∉ cols → ∀ (k : Int) (c : String), pyIntParse col = some k → 1 ≤ k →
      cols.get? (k - 1).toNat = some c →
      get_column_name cols col = some (some c)) ∧
    (col ∉ cols → pyIntParse col = none → get_column_name cols col = some none) := by
  refine ⟨fun h => ?_, fun h k c hk h1 hc => ?_, fun h hp => ?_⟩
  · simp [get_column_name, h]
  · rw [get_column_name, if_neg h, hk]
    simp only [pyIndex]
    rw [if_neg (by omega : ¬(k - 1 < 0)), hc]
    rfl
  · simp [get_column_name, h, hp]

/-- C3 witness: for columns [t,a,b], token "2" resolves to "a" and token
"zzz" resolves to None without raising. -/
theorem get_column_name_spec_witness :
    get_column_name ["t", "a", "b"] "2" = some (some "a") ∧
    get_column_name ["t", "a", "b"] "zzz" = some none := by
  constructor
  · exact (get_column_name_spec ["t", "a", "b"] "2").2.1 (by decide) 2 "a"
      (by decide) (by decide) (by decide)
  · exact (get_column_name_spec ["t", "a", "b"] "zzz").2.2 (by decide) (by decide)

/-- C10: for a nonempty table, token "0" never raises an out-of-bounds
indexing error: when no column is literally named "0" it resolves to the
last column (int("0")-1 = -1, negative indexing); generally, an integer
token k with k <= 0 and |k-1| <= len(columns) resolves to the column
counted from the end of the table. -/
theorem get_column_name_token_zero (cols : List String) (h1 : cols ≠ []) :
    get_column_name cols "0" ≠ none ∧
    ("0" ∉ cols → get_column_name cols "0" = some (some (cols.getLast h1))) ∧
    (∀ (tok : String) (k : Int), tok ∉ cols → pyIntParse tok = some k → k ≤ 0 →
      (1 - k).toNat ≤ cols.length →
      get_column_name cols tok = some (cols.get? (cols.length - (1 - k).toNat))) := by
  have hlen : 0 < cols.length := List.length_pos.mpr h1
  have hgen : ∀ (tok : String) (k : Int), tok ∉ cols → pyIntParse tok = some k → k ≤ 0 →
      (1 - k).toNat ≤ cols.length →
      get_column_name cols tok = some (cols.get? (cols.length - (1 - k).toNat)) := by
    intro tok k htok hk hk0 hbound
    rw [get_column_name, if_neg htok, hk]
    simp only [pyIndex]
    rw [if_pos (by omega : k - 1 < 0)]
    have he : (-(k - 1)).toNat = (1 - k).toNat := by omega
    rw [he, if_pos hbound]
    have hidx : cols.length - (1 - k).toNat < cols.length := by omega
    obtain ⟨c, hc⟩ : ∃ c, cols.get? (cols.length - (1 - k).toNat) = some c := by
      cases hg : cols.get? (cols.length - (1 - k).toNat) with
      | none => exact absurd (List.get?_eq_none.mp hg) (by omega)
      | some c => exact ⟨c, rfl⟩
    rw [hc]
    rfl
  have hparse0 : pyIntParse "0" = some 0 := by decide
  refine ⟨?_, fun h0 => ?_, hgen⟩
  · by_cases h0 : "0" ∈ cols
    · simp [get_column_name, h0]
    · rw [hgen "0" 0 h0 hparse0 (by omega) (by omega)]
      simp
  · rw [hgen "0" 0 h0 hparse0 (by omega) (by omega)]
    have h2 : (1 - (0 : Int)).toNat = 1 := by decide
    rw [h2, List.getLast_eq_get, List.get?_eq_get (by omega : cols.length - 1 < cols.length)]

/-- C10 witness: for columns [t,a,b], token "0" resolves to "b" (the last
column) and token "-1" resolves to "a" (second from the end). -/
theorem get_column_name_token_zero_witness :
    get_column_name ["t", "a", "b"] "0" = some (some "b") ∧
    get_column_name ["t", "a", "b"] "-1" = some (some "a") := by
  have h := get_column_name_token_zero ["t", "a", "b"] (by decide)
  constructor
  · rw [h.2.1 (by decide)]
    decide
  · rw [h.2.2 "-1" (-1) (by decide) (by decide) (by decide) (by decide)]
    decide

/-- C1 amended: after per-series normalization with at least one resolved
y column, every per-series list has length exactly N = number of resolved
y columns, PROVIDED each user-supplied comma-list has at most N entries,
the x token list has at most N entries, and N is at most 10 (fill_list
never truncates, so an attribute given more values than series keeps all
of them, and the color list is built against the fixed 10-entry palette
and then cut to N, so for N > 10 without enough user colors it ends up
shorter than N). -/
theorem fill_args_uniform_lengths (a : Args) (fa : FilledArgs)
    (hN1 : 1 ≤ a.ycol.length) (hN10 : a.ycol.length ≤ 10)
    (hx2 : a.xcol.length ≤ a.ycol.length)
    (hleg : (a.legend.getD []).length ≤ a.ycol.length)
    (hcol : (a.color.getD []).length ≤ a.ycol.length)
    (hsty : (a.style.getD []).length ≤ a.ycol.length)
    (hmar : (a.marker.getD []).length ≤ a.ycol.length)
    (hlw : (a.linewidth.getD []).length ≤ a.ycol.length)
    (hms : (a.markersize.getD []).length ≤ a.ycol.length)
    (htf : (a.time_format.getD []).length ≤ a.ycol.length)
    (hrs : (a.resample.getD []).length ≤ a.ycol.length)
    (hfa : fill_args a = some fa) :
    fa.xcol.length = a.ycol.length ∧ fa.legend.length = a.ycol.length ∧
    fa.color.length = a.ycol.length ∧ fa.style.length = a.ycol.length ∧
    fa.marker.length = a.ycol.length ∧ fa.linewidth.length = a.ycol.length ∧
    fa.markersize.length = a.ycol.length ∧ fa.output.length = a.ycol.length ∧
    fa.time_format.length = a.ycol.length ∧ fa.resample.length = a.ycol.length ∧
    fa.sort.length = a.ycol.length := by
  have hN0 : a.ycol.length ≠ 0 := by omega
  simp only [fill_args, Option.bind_eq_bind, Option.bind_eq_some, Option.pure_def,
    Option.some.injEq] at hfa
  obtain ⟨xlast, hxl, xcol, hxc, legend, hlg, color0, hc0, style, hst,
    marker, hmk, lw0, hl0, lw, hl1, ms0, hm0, ms, hm1, tf, htf2, rs, hrs2,
    sort, hso, hfaeq⟩ := hfa
  subst hfaeq
  have Hx := fill_list_length _ _ _ _ hxc
  rw [Option.getD_some, fl_length_pos _ _ hN0] at Hx
  have Hlg := fill_list_length _ _ _ _ hlg
  rw [show fl_defaults (a.legend.getD []) (some (a.ycol.map some)) = a.ycol.map some from rfl,
    fl_length_none, List.length_map] at Hlg
  have Hc0 := fill_list_length _ _ _ _ hc0
  rw [show fl_defaults (a.color.getD []) (some default_palette) = default_palette from rfl,
    fl_length_none, show default_palette.length = 10 from rfl] at Hc0
  have Hst := fill_list_length _ _ _ _ hst
  rw [fl_length_pos _ _ hN0] at Hst
  have Hmk := fill_list_length _ _ _ _ hmk
  rw [fl_length_pos _ _ hN0] at Hmk
  have Hl0 := fill_list_length _ _ _ _ hl0
  rw [fl_length_pos _ _ hN0] at Hl0
  have Hl1 := mapM_option_length _ _ _ hl1
  have Hm0 := fill_list_length _ _ _ _ hm0
  rw [fl_length_pos _ _ hN0] at Hm0
  have Hm1 := mapM_option_length _ _ _ hm1
  have Htf := fill_list_length _ _ _ _ htf2
  rw [fl_length_pos _ _ hN0] at Htf
  have Hrs := fill_list_length _ _ _ _ hrs2
  rw [fl_length_pos _ _ hN0] at Hrs
  have Hso := fill_list_length _ _ _ _ hso
  rw [Option.getD_some, fl_length_pos _ _ hN0] at Hso
  simp only [List.length_map] at Hl1 Hm1
  refine ⟨?_, ?_, ?_, ?_, ?_, ?_, ?_, ?_, ?_, ?_, ?_⟩
  · show xcol.length = a.ycol.length
    omega
  · show legend.length = a.ycol.length
    omega
  · show (color0.take a.ycol.length).length = a.ycol.length
    rw [List.length_take]
    omega
  · show style.length = a.ycol.length
    omega
  · show marker.length = a.ycol.length
    omega
  · show lw.length = a.ycol.length
    omega
  · show ms.length = a.ycol.length
    omega
  · show (List.replicate a.ycol.length a.output).length = a.ycol.length
    simp
  · show tf.length = a.ycol.length
    omega
  · show rs.length = a.ycol.length
    omega
  · show sort.length = a.ycol.length
    simp only [List.length_cons, List.length_nil] at Hso
    omega

/-- C1 counterexample: with one resolved y column (N = 1) but two
user-supplied legend values, the resolved legend list has length 2, not
N: fill_list never truncates a longer input. -/
theorem fill_args_uniform_lengths_cex :
    args_excess_legend.ycol.length = 1 ∧
    (fill_args args_excess_legend).map (fun f => f.legend.length) = some 2 :=
  ⟨by decide, by decide⟩

/-- C1 witness -/
theorem fill_args_uniform_lengths_witness :
    (fill_args args_three_series).map (fun f => f.legend.length) = some 3 := by
  cases hfa : fill_args args_three_series with
  | none =>
    have hs : (fill_args args_three_series).isSome = true := by decide
    rw [hfa] at hs
    simp at hs
  | some fa =>
    have h := fill_args_uniform_lengths args_three_series fa (by decide) (by decide)
      (by decide) (by decide) (by decide) (by decide) (by decide) (by decide)
      (by decide) (by decide) (by decide) hfa
    show some fa.legend.length = some 3
    exact congrArg some (h.2.1.trans (by decide))

/-- C5 amended: when zero y-column tokens resolve (N = 0), normalization
is not explicitly guarded, but broadcasting does NOT degenerate to empty
lists for every attribute: a length of 0 is falsy in Python, so fill_list
falls back to len(default_vals).  Only color and output become empty (and
legend keeps its input length, 0 when unset); xcol keeps its input
length, and style, marker, linewidth, markersize, time_format, resample
get max(input length, 1) entries while sort gets exactly 1. -/
theorem fill_args_zero_series_lengths (a : Args) (fa : FilledArgs)
    (h0 : a.ycol = []) (hfa : fill_args a = some fa) :
    fa.xcol.length = a.xcol.length ∧
    fa.legend.length = (a.legend.getD []).length ∧
    fa.color = [] ∧ fa.output = [] ∧
    fa.style.length = max (a.style.getD []).length 1 ∧
    fa.marker.length = max (a.marker.getD []).length 1 ∧
    fa.linewidth.length = max (a.linewidth.getD []).length 1 ∧
    fa.markersize.length = max (a.markersize.getD []).length 1 ∧
    fa.time_format.length = max (a.time_format.getD []).length 1 ∧
    fa.resample.length = max (a.resample.getD []).length 1 ∧
    fa.sort.length = 1 := by
  simp only [fill_args, Option.bind_eq_bind, Option.bind_eq_some, Option.pure_def,
    Option.some.injEq] at hfa
  obtain ⟨xlast, hxl, xcol, hxc, legend, hlg, color0, hc0, style, hst,
    marker, hmk, lw0, hl0, lw, hl1, ms0, hm0, ms, hm1, tf, htf2, rs, hrs2,
    sort, hso, hfaeq⟩ := hfa
  subst hfaeq
  have hxne : a.xcol ≠ [] := by
    intro h
    rw [h] at hxl
    simp at hxl
  have hx1 : 1 ≤ a.xcol.length := by
    have := List.length_pos.mpr hxne
    omega
  simp only [h0, List.length_nil, List.map_nil] at hxc hlg hst hmk hl0 hm0 htf2 hrs2 hso
  have Hx := fill_list_length _ _ _ _ hxc
  rw [Option.getD_some, show fl_length (fl_defaults a.xcol (some [xlast])) (some 0) =
    1 from rfl] at Hx
  have Hlg := fill_list_length _ _ _ _ hlg
  rw [show fl_length (fl_defaults (a.legend.getD []) (some [])) none = 0 from rfl] at Hlg
  have Hst := fill_list_length _ _ _ _ hst
  rw [show fl_length (fl_defaults (a.style.getD []) none) (some 0) = 1 from rfl] at Hst
  have Hmk := fill_list_length _ _ _ _ hmk
  rw [show fl_length (fl_defaults (a.marker.getD []) none) (some 0) = 1 from rfl] at Hmk
  have Hl0 := fill_list_length _ _ _ _ hl0
  rw [show fl_length (fl_defaults (a.linewidth.getD []) none) (some 0) = 1 from rfl] at Hl0
  have Hl1 := mapM_option_length _ _ _ hl1
  have Hm0 := fill_list_length _ _ _ _ hm0
  rw [show fl_length (fl_defaults (a.markersize.getD []) none) (some 0) = 1 from rfl] at Hm0
  have Hm1 := mapM_option_length _ _ _ hm1
  have Htf := fill_list_length _ _ _ _ htf2
  rw [show fl_length (fl_defaults (a.time_format.getD []) (some [none])) (some 0) =
    1 from rfl] at Htf
  have Hrs := fill_list_length _ _ _ _ hrs2
  rw [show fl_length (fl_defaults (a.resample.getD []) (some [none])) (some 0) =
    1 from rfl] at Hrs
  have Hso := fill_list_length _ _ _ _ hso
  rw [Option.getD_some, show fl_length (fl_defaults [some a.sort] none) (some 0) =
    1 from rfl, List.length_singleton] at Hso
  refine ⟨?_, ?_, ?_, ?_, ?_, ?_, ?_, ?_, ?_, ?_, ?_⟩
  · show xcol.length = a.xcol.length
    omega
  · show legend.length = (a.legend.getD []).length
    omega
  · show List.take a.ycol.length color0 = []
    rw [h0]
    simp
  · show List.replicate a.ycol.length a.output = []
    rw [h0]
    simp
  · show style.length = max (a.style.getD []).length 1
    omega
  · show marker.length = max (a.marker.getD []).length 1
    omega
  · show lw.length = max (a.linewidth.getD []).length 1
    omega
  · show ms.length = max (a.markersize.getD []).length 1
    omega
  · show tf.length = max (a.time_format.getD []).length 1
    omega
  · show rs.length = max (a.resample.getD []).length 1
    omega
  · show sort.length = 1
    omega

/-- C5 counterexample: with N = 0 the resolved marker list is [o]
(length 1), not the empty list. -/
theorem fill_args_zero_series_cex :
    args_zero_series.ycol.length = 0 ∧
    (fill_args args_zero_series).map (fun f => f.marker) = some [some "o"] :=
  ⟨by decide, by decide⟩

/-- C5 amended witness: at the concrete N = 0 input, color resolves to []
while marker resolves to a one-entry list. -/
theorem fill_args_zero_series_lengths_witness :
    (fill_args args_zero_series).map (fun f => (f.color, f.marker.length)) =
      some ([], 1) := by
  cases hfa : fill_args args_zero_series with
  | none =>
    have hs : (fill_args args_zero_series).isSome = true := by decide
    rw [hfa] at hs
    simp at hs
  | some fa =>
    have h := fill_args_zero_series_lengths args_zero_series fa (by decide) hfa
    show some (fa.color, fa.marker.length) = some ([], 1)
    rw [h.2.2.1, h.2.2.2.2.2.1]
    rfl

/-- C9: fill_list never truncates: an input list strictly longer than the
target length is returned with its full length and with every non-None
input element preserved at its position; only the color list is cut to
the first N entries by fill_args, so with N = 3 and no user colors the
resolved colors are exactly [C0, C1, C2]. -/
theorem fill_list_no_truncate (lst d : List (Option String)) (L : Nat)
    (r : List (Option String)) (hL : L ≠ 0) (hlen : L < lst.length)
    (hfill : fill_list (some lst) (some d) (some L) = some r) :
    (r.length = lst.length ∧
      ∀ (i : Nat) (s : String), lst.get? i = some (some s) →
        r.get? i = some (some s)) ∧
    (fill_args args_three_series).map FilledArgs.color =
      some [some "C0", some "C1", some "C2"] := by
  constructor
  · have hr := fill_list_some_elim _ _ _ _ hfill
    rw [Option.getD_some] at hr
    rw [show fl_defaults lst (some d) = d from rfl, fl_length_pos _ _ hL] at hr
    have hpad : fl_padded lst L = lst := by
      rw [fl_padded, show L - lst.length = 0 from by omega]
      simp
    rw [hpad] at hr
    subst hr
    refine ⟨fillFrom_length d 0 lst, ?_⟩
    intro i s hi
    rw [fillFrom_get?, hi]
    rfl
  · decide

/-- C9 witness: a three-element list broadcast to target length 2 keeps
length 3. -/
theorem fill_list_no_truncate_witness :
    ([some "a", some "b", some "c"] : List (Option String)).length = 3 ∧
    (fill_args args_three_series).map FilledArgs.color =
      some [some "C0", some "C1", some "C2"] := by
  have h := fill_list_no_truncate [some "a", some "b", some "c"] [] 2
      [some "a", some "b", some "c"] (by decide) (by decide) (by decide)
  exact ⟨h.1.1.trans (by decide), h.2⟩

/-- C4 amended: a given xrange string is split on '-', each piece has
every '_' replaced by '-', each piece is parsed as a float, and the
result is marked user-specified; "0-10" parses to [0, 10] and "_5-10" to
[-5, 10], while the value [-1.5, -3.2] comes from "_1.5-_3.2" (the
spec's "1_5-3_2" is a fatal float ValueError instead). -/
theorem xrange_parse (g : GArgs) (r : GlobalResolved) (s : String) (l : List Rat)
    (hs : g.xrange = some s) (hne : s ≠ "") (hl : parse_range s = some l)
    (hr : fill_global_args g = some r) :
    r.xrange = (some l, true) ∧
    parse_range "0-10" = some [0, 10] ∧
    parse_range "_5-10" = some [-5, 10] ∧
    parse_range "_1.5-_3.2" = some [-1.5, -3.2] := by
  refine ⟨?_, parse_range_0_10, parse_range_m5_10, parse_range_m1p5_m3p2⟩
  have h := (fill_global_args_elim g r hr).2.1
  rw [hs] at h
  simp only [fill_range_field, if_neg hne, hl, Option.map_some'] at h
  exact (Option.some.inj h).symm

/-- C4 counterexample: "1_5-3_2" does not parse to [-1.5, -3.2]; float()
fails on the replaced piece "1-5" and the ValueError propagates. -/
theorem xrange_parse_cex :
    parse_range "1_5-3_2" = none ∧
    (none : Option (List Rat)) ≠ some [-1.5, -3.2] :=
  ⟨parse_range_bad, by simp⟩

/-- C4 witness: with xrange "0-10" the resolved range is ([0, 10], true). -/
theorem xrange_parse_witness :
    (fill_global_args gargs_range_0_10).map GlobalResolved.xrange =
      some (some [0, 10], true) := by
  cases hr : fill_global_args gargs_range_0_10 with
  | none =>
    have hs : (fill_global_args gargs_range_0_10).isSome = true := by decide
    rw [hr] at hs
    simp at hs
  | some r =>
    have h := xrange_parse gargs_range_0_10 r "0-10" [0, 10] rfl (by decide)
      parse_range_0_10 hr
    show some r.xrange = some (some [0, 10], true)
    rw [h.1]

/-- C6 amended: the number of '-'-separated pieces is NOT checked: any
piece count whose pieces all parse as floats yields a resolved range of
that length, marked user-specified. -/
theorem range_no_arity_check (s : String) (l : List Rat) (hne : s ≠ "")
    (hl : parse_range s = some l) :
    fill_range_field (some s) = some (some l, true) ∧
    l.length = (pySplit '-' s).length := by
  constructor
  · simp only [fill_range_field, if_neg hne, hl, Option.map_some']
  · exact mapM_option_length _ _ _ hl

/-- C6 counterexample: the three-piece range "0-10-20" does not fail
normalization; it resolves to ([0, 10, 20], true). -/
theorem range_no_arity_check_cex :
    (fill_global_args gargs_three_bounds).map GlobalResolved.xrange =
      some (some [0, 10, 20], true) ∧
    (pySplit '-' "0-10-20").length ≠ 2 := by
  refine ⟨?_, by decide⟩
  cases hr : fill_global_args gargs_three_bounds with
  | none =>
    have hs : (fill_global_args gargs_three_bounds).isSome = true := by decide
    rw [hr] at hs
    simp at hs
  | some r =>
    have h := (fill_global_args_elim gargs_three_bounds r hr).2.1
    simp only [show gargs_three_bounds.xrange = some "0-10-20" from rfl,
      fill_range_field, if_neg (by decide : ¬("0-10-20" = "")),
      parse_range_0_10_20, Option.map_some'] at h
    show some r.xrange = some (some [0, 10, 20], true)
    rw [← Option.some.inj h]

/-- C6 witness: "0-10-20" yields a resolved three-element range. -/
theorem range_no_arity_check_witness :
    fill_range_field (some "0-10-20") = some (some [(0 : Rat), 10, 20], true) ∧
    ([(0 : Rat), 10, 20].length = (pySplit '-' "0-10-20").length) := by
  have h := range_no_arity_check "0-10-20" [0, 10, 20] (by decide) parse_range_0_10_20
  exact ⟨h.1, h.2⟩

/-- C7: when xlabel, ylabel and title are all unset, xlabel is the
de-duplicated resolved x-column names joined by ", " marked not
user-specified, ylabel is all y-column names (not de-duplicated) joined
by ", " marked not user-specified, and title is "<ylabel> vs <xlabel>"
from those just-computed values, marked not user-specified. -/
theorem label_title_synthesis (g : GArgs) (r : GlobalResolved) (xs : List String)
    (hxl : g.xlabel = none) (hyl : g.ylabel = none) (hti : g.title = none)
    (hxs : g.xcol.mapM id = some xs)
    (hr : fill_global_args g = some r) :
    r.xlabel = (pyJoin ", " (pySetDedup xs), false) ∧
    r.ylabel = (pyJoin ", " g.ycol, false) ∧
    r.title = (pyJoin ", " g.ycol ++ " vs " ++ pyJoin ", " (pySetDedup xs), false) := by
  obtain ⟨h1, _, h3, _, h5⟩ := fill_global_args_elim g r hr
  rw [hxl] at h1
  simp only [fill_xlabel, hxs, Option.map_some'] at h1
  have hx : r.xlabel = (pyJoin ", " (pySetDedup xs), false) := (Option.some.inj h1).symm
  rw [hyl] at h3
  simp only [fill_ylabel] at h3
  rw [hti] at h5
  refine ⟨hx, h3, ?_⟩
  rw [h5, h3, hx]

/-- C7 witness: x columns [time] and y columns [a, b] yield
("time", false), ("a, b", false), ("a, b vs time", false). -/
theorem label_title_synthesis_witness :
    (fill_global_args gargs_unset_labels).map
        (fun r => (r.xlabel, r.ylabel, r.title)) =
      some (("time", false), ("a, b", false), ("a, b vs time", false)) := by
  cases hr : fill_global_args gargs_unset_labels with
  | none =>
    have hs : (fill_global_args gargs_unset_labels).isSome = true := by decide
    rw [hr] at hs
    simp at hs
  | some r =>
    have h := label_title_synthesis gargs_unset_labels r ["time"] rfl rfl rfl
      (by decide) hr
    show some (r.xlabel, r.ylabel, r.title) = _
    rw [h.1, h.2.1, h.2.2]
    decide

end GraphCli
